import Mathlib

/-!
Verification of the backend process supervisor in
`src/gui/frontend/src-tauri/src/lib.rs` (script-to-speech GUI shell).

The Rust code is shallowly embedded as pure Lean functions.  All interaction
with the operating system and the Tauri host (poll results of `try_wait`,
resolvability of the packaged sidecar, spawn outcomes, kill outcomes, the
resolved application-data directory, the compile-time development workspace
root) is passed in explicitly through environment values, so every function
is a total, executable description of the control flow of the source.
-/

namespace StsGui

/-- Result of `std::process::Child::try_wait()` as the OS would answer it for
a directly spawned child: `Ok(None)` (still running), `Ok(Some(status))`
(exited), or `Err(e)` (poll failed). -/
inductive TryWaitResult where
  | stillRunning : TryWaitResult
  | exited (status : Int) : TryWaitResult
  | pollFailed (msg : String) : TryWaitResult
  deriving DecidableEq, Repr

/-- The backend child handle, `enum BackendChild` in lib.rs:
`Dev(std::process::Child)` for the manually spawned `uv run` process and
`Sidecar(CommandChild)` for the Tauri-managed bundled executable.  Only the
pid is carried; the OS-level behaviour of the underlying process is supplied
by the environment at each call. -/
inductive BackendChild where
  | Dev (pid : Nat) : BackendChild
  | Sidecar (pid : Nat) : BackendChild
  deriving DecidableEq, Repr

/-- `BackendChild::try_wait` (lib.rs lines 40-49): a `Dev` child delegates to
the OS poll; a `Sidecar` child cannot be polled synchronously and the code
returns `Ok(None)` unconditionally, meaning "still running or unknown". -/
def BackendChild.try_wait : BackendChild → TryWaitResult → TryWaitResult
  | .Dev _, os => os
  | .Sidecar _, _ => .stillRunning

/-- `BackendChild::pid` (lib.rs lines 52-57). -/
def BackendChild.pid : BackendChild → Nat
  | .Dev p => p
  | .Sidecar p => p

/-- `BackendChild::kill` (lib.rs lines 29-37): both variants forward the kill
to the underlying facility; the `Sidecar` arm re-wraps the error into an
`std::io::Error` carrying the same message text. -/
def BackendChild.kill : BackendChild → Except String Unit → Except String Unit
  | .Dev _, os => os
  | .Sidecar _, os => os

/-- Equality on `Except` is decidable when it is on both components; used by
the derived decidable equalities of the outcome records below. -/
instance exceptDecEq {ε α : Type} [DecidableEq ε] [DecidableEq α] :
    DecidableEq (Except ε α)
  | .ok a, .ok b =>
    if h : a = b then .isTrue (by rw [h])
    else .isFalse (fun hc => h (by cases hc; rfl))
  | .ok _, .error _ => .isFalse (fun hc => Except.noConfusion hc)
  | .error _, .ok _ => .isFalse (fun hc => Except.noConfusion hc)
  | .error a, .error b =>
    if h : a = b then .isTrue (by rw [h])
    else .isFalse (fun hc => h (by cases hc; rfl))

/-- Outcome of `shutdown_backend`: the supervisor state after the call
(the `Option<BackendChild>` inside the mutex) together with the kill that was
issued, if any, as the pid it targeted and the result the OS reported. -/
structure ShutdownOutcome where
  newState : Option BackendChild
  killAttempt : Option (Nat × Except String Unit)
  deriving DecidableEq, Repr

/-- `shutdown_backend` (lib.rs lines 65-79): `guard.take()` removes whatever
handle is stored, so the state is empty when the function returns; when a
child was present its kill is issued and the result is merely logged. -/
def shutdown_backend (state : Option BackendChild) (osKill : Except String Unit) :
    ShutdownOutcome :=
  match state with
  | some child => ⟨none, some (child.pid, child.kill osKill)⟩
  | none => ⟨none, none⟩

/-- Outcome of the `stop_backend` command: the returned
`Result<String, String>` and the supervisor state after the call. -/
structure StopOutcome where
  result : Except String String
  newState : Option BackendChild
  deriving DecidableEq, Repr

/-- `stop_backend` (lib.rs lines 268-275): calls `shutdown_backend` and then
returns `Ok("Backend stopped successfully")` unconditionally. -/
def stop_backend (state : Option BackendChild) (osKill : Except String Unit) :
    StopOutcome :=
  let sd := shutdown_backend state osKill
  ⟨Except.ok "Backend stopped successfully", sd.newState⟩

/-- The host lifecycle events dispatched to the closure passed to
`Builder::run` in `run()` (lib.rs lines 316-324): `tauri::RunEvent::Exit`
versus everything else (the wildcard arm). -/
inductive RunEvent where
  | Exit : RunEvent
  | Other : RunEvent
  deriving DecidableEq, Repr

/-- Outcome of one dispatch of the run-event closure: the supervisor state
afterwards and how many times `shutdown_backend` was invoked. -/
structure RunEventOutcome where
  newState : Option BackendChild
  shutdownCalls : Nat
  deriving DecidableEq, Repr

/-- The event closure installed by `run()` (lib.rs lines 316-324): on
`RunEvent::Exit` it invokes `shutdown_backend` exactly once; every other
event falls into the wildcard arm and touches nothing. -/
def run_on_event (ev : RunEvent) (state : Option BackendChild)
    (osKill : Except String Unit) : RunEventOutcome :=
  match ev with
  | .Exit => ⟨(shutdown_backend state osKill).newState, 1⟩
  | .Other => ⟨state, 0⟩

/-- `DEV_PORT` (lib.rs line 13). -/
def DEV_PORT : Nat := 8000

/-- `PROD_PORT` (lib.rs line 14). -/
def PROD_PORT : Nat := 58735

/-- `get_workspace_dir` (lib.rs lines 83-104): in bundled mode it resolves
the platform `AppLocalData` directory, mapping a resolution error to a
descriptive message; in development mode it returns the compile-time
`DEV_WORKSPACE_ROOT` constant produced by build.rs. -/
def get_workspace_dir (appLocalData : Except String String)
    (devWorkspaceRoot : String) (isBundled : Bool) : Except String String :=
  if isBundled then
    match appLocalData with
    | .ok d => .ok d
    | .error e => .error ("Failed to get app data directory: " ++ e)
  else
    .ok devWorkspaceRoot

/-- What a spawn call launches: the named Tauri sidecar, or a plain
executable via `std::process::Command`. -/
inductive SpawnProgram where
  | sidecar (name : String) : SpawnProgram
  | command (program : String) : SpawnProgram
  deriving DecidableEq, Repr

/-- One spawn call as issued by `start_backend`: the program, its argument
list, the working directory it was given (if any), and whether its standard
input is piped (set explicitly via `Stdio::piped()` for the development
command; supplied automatically by the Tauri sidecar facility, per the
comment at lib.rs lines 147-148). -/
structure SpawnRequest where
  program : SpawnProgram
  args : List String
  cwd : Option String
  stdinPiped : Bool
  deriving DecidableEq, Repr

/-- Everything `start_backend` receives from the host and the OS during one
call.  `sidecarExecBit` and `chmodResult` describe the execute-permission
state of the packaged executable and the outcome a mode adjustment would
have; the source never consults either (there is no permission check or
chmod anywhere in lib.rs), they are carried so that this fact is statable. -/
structure StartEnv where
  tryWaitResult : TryWaitResult
  sidecarResolvable : Bool
  appLocalData : Except String String
  devWorkspaceRoot : String
  sidecarSpawn : Except String Nat
  devSpawn : Except String Nat
  sidecarExecBit : Bool
  chmodResult : Except String Unit
  deriving DecidableEq, Repr

/-- Outcome of the `start_backend` command: the returned
`Result<String, String>`, the supervisor state after the call, every spawn
call issued (in order), and every permission-mode adjustment issued
(pairs of path and mode).  `start_backend` contains no chmod call, so the
last list is empty on every path of the translation. -/
structure StartOutcome where
  result : Except String String
  newState : Option BackendChild
  spawns : List SpawnRequest
  permAdjustments : List (String × Nat)
  deriving DecidableEq, Repr

/-- The already-running check at the top of `start_backend` (lib.rs lines
117-133): with a stored handle whose `try_wait` yields `Ok(None)` the call
returns early; `Ok(Some(_))` and `Err(_)` both fall through to a fresh
launch, and so does an empty state. -/
def backendAlreadyRunning (state : Option BackendChild) (tw : TryWaitResult) : Bool :=
  match state with
  | some child =>
    match child.try_wait tw with
    | .stillRunning => true
    | .exited _ => false
    | .pollFailed _ => false
  | none => false

/-- The launch half of `start_backend` (lib.rs lines 136-265): if the
sidecar `sts-gui-backend` resolves, resolve the bundled workspace and spawn
the sidecar with `--production --port <PROD_PORT>`; otherwise resolve the
development workspace and spawn `uv run sts-gui-server --port <DEV_PORT>`
with that workspace as current directory and stdin piped.  A workspace
resolution failure propagates before any spawn (`?` on `get_workspace_dir`);
a spawn failure is mapped to a descriptive error and leaves the stored
state untouched. -/
def launch_backend (env : StartEnv) (state : Option BackendChild) : StartOutcome :=
  if env.sidecarResolvable then
    match get_workspace_dir env.appLocalData env.devWorkspaceRoot true with
    | .error e => ⟨.error e, state, [], []⟩
    | .ok _workspace_dir =>
      let req : SpawnRequest :=
        ⟨.sidecar "sts-gui-backend", ["--production", "--port", toString PROD_PORT],
          none, true⟩
      match env.sidecarSpawn with
      | .error e => ⟨.error ("Failed to spawn sidecar: " ++ e), state, [req], []⟩
      | .ok pid =>
        ⟨.ok "Backend started successfully (production)",
          some (BackendChild.Sidecar pid), [req], []⟩
  else
    match get_workspace_dir env.appLocalData env.devWorkspaceRoot false with
    | .error e => ⟨.error e, state, [], []⟩
    | .ok workspace_dir =>
      let req : SpawnRequest :=
        ⟨.command "uv", ["run", "sts-gui-server", "--port", toString DEV_PORT],
          some workspace_dir, true⟩
      match env.devSpawn with
      | .error e =>
        ⟨.error ("Failed to start backend from \"" ++ workspace_dir ++ "\": " ++ e),
          state, [req], []⟩
      | .ok pid =>
        ⟨.ok "Backend started successfully (development)",
          some (BackendChild.Dev pid), [req], []⟩

/-- `start_backend` (lib.rs lines 107-266): under the held supervisor lock,
first the already-running check, then the mode-dependent launch. -/
def start_backend (env : StartEnv) (state : Option BackendChild) : StartOutcome :=
  if backendAlreadyRunning state env.tryWaitResult then
    ⟨.ok "Backend already running", state, [], []⟩
  else
    launch_backend env state

/-- `Except.isOk` written out for the embedding: whether a result is `Ok`. -/
def exceptIsOk {ε α : Type} : Except ε α → Bool
  | .ok _ => true
  | .error _ => false

/-- `toString PROD_PORT` renders as the literal "58735". -/
theorem PROD_PORT_string : toString PROD_PORT = "58735" := rfl

/-- `toString DEV_PORT` renders as the literal "8000". -/
theorem DEV_PORT_string : toString DEV_PORT = "8000" := rfl

/-- C1: When the host's exit notification (`RunEvent::Exit`) fires while a
child process is tracked, the event closure invokes the shutdown logic
exactly once before returning, and afterwards no child is tracked: the
supervisor state is empty at host-application exit. -/
theorem exit_event_shuts_down_once (state : Option BackendChild)
    (c : BackendChild) (osKill : Except String Unit) (h : state = some c) :
    (run_on_event RunEvent.Exit state osKill).shutdownCalls = 1 ∧
    (run_on_event RunEvent.Exit state osKill).newState = none := by
  subst h
  exact ⟨rfl, rfl⟩

/-- Witness for C1 at a concrete tracked child. -/
theorem exit_event_shuts_down_once_witness :
    (run_on_event RunEvent.Exit (some (BackendChild.Dev 7)) (Except.ok ())).shutdownCalls = 1 ∧
    (run_on_event RunEvent.Exit (some (BackendChild.Dev 7)) (Except.ok ())).newState = none :=
  exit_event_shuts_down_once (some (BackendChild.Dev 7)) (BackendChild.Dev 7)
    (Except.ok ()) rfl

/-- C2: Whenever the packaged sidecar `sts-gui-backend` is resolvable, no
live handle is stored (the already-running check does not fire), the bundled
workspace resolves and the spawn succeeds, `start_backend` issues exactly one
spawn — the sidecar with arguments `--production --port 58735` — never the
development command, and returns
`Ok("Backend started successfully (production)")`. -/
theorem start_production_exact_args (env : StartEnv) (state : Option BackendChild)
    (d : String) (pid : Nat)
    (hres : env.sidecarResolvable = true)
    (halive : backendAlreadyRunning state env.tryWaitResult = false)
    (hdir : env.appLocalData = Except.ok d)
    (hspawn : env.sidecarSpawn = Except.ok pid) :
    start_backend env state =
      ⟨Except.ok "Backend started successfully (production)",
        some (BackendChild.Sidecar pid),
        [⟨SpawnProgram.sidecar "sts-gui-backend",
          ["--production", "--port", "58735"], none, true⟩], []⟩ := by
  unfold start_backend launch_backend get_workspace_dir
  rw [halive, hres, hdir, hspawn]
  rfl

/-- Witness for C2 at a concrete environment. -/
theorem start_production_exact_args_witness :
    start_backend
      ⟨TryWaitResult.stillRunning, true, Except.ok "/appdata", "/ws",
        Except.ok 42, Except.ok 1, true, Except.ok ()⟩ none =
      ⟨Except.ok "Backend started successfully (production)",
        some (BackendChild.Sidecar 42),
        [⟨SpawnProgram.sidecar "sts-gui-backend",
          ["--production", "--port", "58735"], none, true⟩], []⟩ :=
  start_production_exact_args
    ⟨TryWaitResult.stillRunning, true, Except.ok "/appdata", "/ws",
      Except.ok 42, Except.ok 1, true, Except.ok ()⟩ none "/appdata" 42
    rfl rfl rfl rfl

/-- C3: Whenever the packaged sidecar is not resolvable, no live handle is
stored, and the development spawn succeeds, `start_backend` issues exactly
one spawn — `uv run sts-gui-server --port 8000` with its current directory
set to the resolved development workspace root and stdin piped — never the
packaged executable, and returns
`Ok("Backend started successfully (development)")`. -/
theorem start_development_exact_command (env : StartEnv)
    (state : Option BackendChild) (pid : Nat)
    (hres : env.sidecarResolvable = false)
    (halive : backendAlreadyRunning state env.tryWaitResult = false)
    (hspawn : env.devSpawn = Except.ok pid) :
    start_backend env state =
      ⟨Except.ok "Backend started successfully (development)",
        some (BackendChild.Dev pid),
        [⟨SpawnProgram.command "uv", ["run", "sts-gui-server", "--port", "8000"],
          some env.devWorkspaceRoot, true⟩], []⟩ := by
  unfold start_backend launch_backend get_workspace_dir
  rw [halive, hres, hspawn]
  rfl

/-- Witness for C3 with workspace root "/ws". -/
theorem start_development_exact_command_witness :
    start_backend
      ⟨TryWaitResult.stillRunning, false, Except.ok "/appdata", "/ws",
        Except.ok 1, Except.ok 7, true, Except.ok ()⟩ none =
      ⟨Except.ok "Backend started successfully (development)",
        some (BackendChild.Dev 7),
        [⟨SpawnProgram.command "uv", ["run", "sts-gui-server", "--port", "8000"],
          some "/ws", true⟩], []⟩ :=
  start_development_exact_command
    ⟨TryWaitResult.stillRunning, false, Except.ok "/appdata", "/ws",
      Except.ok 1, Except.ok 7, true, Except.ok ()⟩ none 7 rfl rfl rfl

/-- C4: While a stored handle is confirmed alive by the poll, a further
`start_backend` call spawns nothing, leaves the stored handle unchanged
(so exactly one live child results), and returns the "already running"
status instead of launching a duplicate. -/
theorem start_noop_when_alive (env : StartEnv) (state : Option BackendChild)
    (c : BackendChild) (h : state = some c)
    (halive : c.try_wait env.tryWaitResult = TryWaitResult.stillRunning) :
    start_backend env state =
      ⟨Except.ok "Backend already running", state, [], []⟩ := by
  subst h
  have hb : backendAlreadyRunning (some c) env.tryWaitResult = true := by
    show (match c.try_wait env.tryWaitResult with
          | TryWaitResult.stillRunning => true
          | TryWaitResult.exited _ => false
          | TryWaitResult.pollFailed _ => false) = true
    rw [halive]
  unfold start_backend
  rw [hb]
  rfl

/-- Witness for C4 at a live development child. -/
theorem start_noop_when_alive_witness :
    start_backend
      ⟨TryWaitResult.stillRunning, true, Except.ok "/appdata", "/ws",
        Except.ok 1, Except.ok 2, true, Except.ok ()⟩
      (some (BackendChild.Dev 3)) =
      ⟨Except.ok "Backend already running", some (BackendChild.Dev 3), [], []⟩ :=
  start_noop_when_alive
    ⟨TryWaitResult.stillRunning, true, Except.ok "/appdata", "/ws",
      Except.ok 1, Except.ok 2, true, Except.ok ()⟩
    (some (BackendChild.Dev 3)) (BackendChild.Dev 3) rfl rfl

/-- C5: Every `stop_backend` call with a handle stored clears the stored
handle unconditionally: whatever the kill reports (success or failure), the
supervisor holds no handle afterwards. -/
theorem stop_clears_stored_handle (c : BackendChild) (osKill : Except String Unit) :
    (stop_backend (some c) osKill).newState = none := rfl

/-- Counterexample for C6: with a handle stored and the kill reporting
failure, `stop_backend` still returns the success status
`Ok("Backend stopped successfully")` — the kill outcome is only logged and
is not reflected in the returned status, contradicting the claim that a
failed kill yields a failure status. -/
theorem stop_reports_success_despite_kill_failure :
    (shutdown_backend (some (BackendChild.Dev 5)) (Except.error "kill failed")).killAttempt =
      some (5, Except.error "kill failed") ∧
    (stop_backend (some (BackendChild.Dev 5)) (Except.error "kill failed")).result =
      Except.ok "Backend stopped successfully" := ⟨rfl, rfl⟩

/-- C6 amended: `stop_backend` returns `Ok("Backend stopped successfully")`
unconditionally — for every stored state and every kill outcome — so its
status never reflects whether the kill succeeded or failed. -/
theorem stop_result_constant (state : Option BackendChild)
    (osKill : Except String Unit) :
    (stop_backend state osKill).result = Except.ok "Backend stopped successfully" := rfl

/-- Counterexample for C7: a `stop_backend` call with no handle tracked
returns the generic `Ok("Backend stopped successfully")` — identical to the
status returned when a child was actually stopped — not a distinct
"not running" informational status. -/
theorem stop_no_handle_generic_message :
    (stop_backend none (Except.ok ())).result =
      Except.ok "Backend stopped successfully" ∧
    (stop_backend none (Except.ok ())).result =
      (stop_backend (some (BackendChild.Dev 5)) (Except.ok ())).result := ⟨rfl, rfl⟩

/-- C7 amended: a `stop_backend` call with no handle tracked never returns
an error; it returns `Ok` with the generic "Backend stopped successfully"
message (not a distinct "not running" status) and leaves the state empty. -/
theorem stop_no_handle_never_errors (osKill : Except String Unit) :
    (stop_backend none osKill).result = Except.ok "Backend stopped successfully" ∧
    (stop_backend none osKill).newState = none := ⟨rfl, rfl⟩

/-- Environment for the C8 counterexample: production launch where the
packaged executable lacks the execute permission bit and a mode adjustment
would itself fail. -/
def noExecBitEnv : StartEnv :=
  ⟨TryWaitResult.stillRunning, true, Except.ok "/appdata", "/ws",
    Except.ok 9, Except.ok 1, false, Except.error "EPERM"⟩

/-- Counterexample for C8: launching in production mode with the packaged
executable's execute bit absent (`sidecarExecBit = false`) and the mode
adjustment bound to fail (`chmodResult = Err "EPERM"`), `start_backend`
issues no permission adjustment at all and succeeds anyway — lib.rs contains
no permission check, no chmod-to-0755, and no `PermissionError` path. -/
theorem start_production_ignores_exec_bit :
    (start_backend noExecBitEnv none).permAdjustments = [] ∧
    (start_backend noExecBitEnv none).result =
      Except.ok "Backend started successfully (production)" := ⟨rfl, rfl⟩

/-- C8 amended: the launcher performs no execute-permission handling — on
every input (any permission state, any chmod outcome, any stored state)
`start_backend` issues no permission-mode adjustment, so it never sets mode
0755 and never returns a `PermissionError`; permission problems can surface
only as a spawn failure. -/
theorem start_never_adjusts_permissions (env : StartEnv)
    (state : Option BackendChild) :
    (start_backend env state).permAdjustments = [] := by
  unfold start_backend launch_backend get_workspace_dir
  repeat' split <;> try rfl

/-- C9: the liveness poll on a `Sidecar` handle answers "still running or
unknown" (`Ok(None)`) for every OS answer, and consequently any
`start_backend` call made while a `Sidecar` handle is stored returns
"already running" with no spawn, whatever the actual state of the sidecar
process. -/
theorem sidecar_poll_always_running (pid : Nat) (tw : TryWaitResult)
    (env : StartEnv) (state : Option BackendChild)
    (h : state = some (BackendChild.Sidecar pid)) :
    BackendChild.try_wait (BackendChild.Sidecar pid) tw = TryWaitResult.stillRunning ∧
    start_backend env state =
      ⟨Except.ok "Backend already running", state, [], []⟩ := by
  subst h
  exact ⟨rfl, rfl⟩

/-- Witness for C9: the stored sidecar is assumed alive even when the OS
poll would report the process exited. -/
theorem sidecar_poll_always_running_witness :
    BackendChild.try_wait (BackendChild.Sidecar 4) (TryWaitResult.exited 1) =
      TryWaitResult.stillRunning ∧
    start_backend
      ⟨TryWaitResult.exited 1, true, Except.ok "/appdata", "/ws",
        Except.ok 1, Except.ok 2, true, Except.ok ()⟩
      (some (BackendChild.Sidecar 4)) =
      ⟨Except.ok "Backend already running", some (BackendChild.Sidecar 4), [], []⟩ :=
  sidecar_poll_always_running 4 (TryWaitResult.exited 1)
    ⟨TryWaitResult.exited 1, true, Except.ok "/appdata", "/ws",
      Except.ok 1, Except.ok 2, true, Except.ok ()⟩
    (some (BackendChild.Sidecar 4)) rfl

/-- C10: when the call reaches the launch and the spawn of the selected mode
fails, `start_backend` returns an error and leaves the stored supervisor
state exactly as it was — in particular a previously stored handle whose
process was detected as exited is neither cleared nor replaced. -/
theorem start_spawn_failure_preserves_state (env : StartEnv)
    (state : Option BackendChild)
    (halive : backendAlreadyRunning state env.tryWaitResult = false)
    (hfail : (if env.sidecarResolvable then exceptIsOk env.sidecarSpawn
              else exceptIsOk env.devSpawn) = false) :
    exceptIsOk (start_backend env state).result = false ∧
    (start_backend env state).newState = state := by
  unfold start_backend launch_backend get_workspace_dir
  rw [halive]
  rcases hres : env.sidecarResolvable with _ | _
  · rw [hres] at hfail
    rcases hdev : env.devSpawn with e | p
    · simp [hdev, exceptIsOk]
    · rw [hdev] at hfail
      simp [exceptIsOk] at hfail
  · rw [hres] at hfail
    rcases hald : env.appLocalData with e | d
    · simp [hald, exceptIsOk]
    · rcases hsc : env.sidecarSpawn with e | p
      · simp [hald, hsc, exceptIsOk]
      · rw [hsc] at hfail
        simp [exceptIsOk] at hfail

/-- Witness for C10: a stored development child detected as exited survives
a failed production spawn attempt untouched, and the call errors. -/
theorem start_spawn_failure_preserves_state_witness :
    exceptIsOk (start_backend
      ⟨TryWaitResult.exited 0, true, Except.ok "/appdata", "/ws",
        Except.error "ENOENT", Except.ok 1, true, Except.ok ()⟩
      (some (BackendChild.Dev 5))).result = false ∧
    (start_backend
      ⟨TryWaitResult.exited 0, true, Except.ok "/appdata", "/ws",
        Except.error "ENOENT", Except.ok 1, true, Except.ok ()⟩
      (some (BackendChild.Dev 5))).newState = some (BackendChild.Dev 5) :=
  start_spawn_failure_preserves_state
    ⟨TryWaitResult.exited 0, true, Except.ok "/appdata", "/ws",
      Except.error "ENOENT", Except.ok 1, true, Except.ok ()⟩
    (some (BackendChild.Dev 5)) (by decide) (by decide)

end StsGui
